import Mathlib

/-!
# Verification of the retail store location model builder

A shallow embedding of `pyomo_retail_optimization.py`: the script loads
tabular data (sets I, J, M, S and sparse tables h_is, d_ij, v_j0), derives
the subsets E / C / P of set M by identifier prefix, and builds a
mixed-integer model with binary variables x[j] for j in P, objective
Σ_i Σ_s h[i,s] · Σ_{j∈P} (1/d[i,j]) · x[j] (maximised) and the single
budget constraint Σ_{j∈P} x[j] ≤ P_max.

Numeric values are modelled as rationals.  Python's division raises
`ZeroDivisionError` on a zero denominator, so model construction, which
evaluates `1/model.d[i,j]` for every referenced pair, is embedded as a
fallible function (`Except`); the pure evaluation functions use the
rational field inverse only where construction is known to succeed or
where the claim quantifies over all assignments regardless.
-/

/-- The tabular inputs of one run, exactly the data the script loads:
four identifier lists and three sparse tables.  `P_max` is model
configuration (the script fixes it to 5 in `model.P_max`); it is passed
separately to the builder. -/
structure RetailData where
  set_I : List String
  set_J : List String
  set_M : List String
  set_S : List String
  h_is : List ((String × String) × ℚ)
  d_ij : List ((String × String) × ℚ)
  v_j0 : List (String × ℚ)
  deriving DecidableEq

/-- First-match lookup in a sparse two-key table (the script stores the
tables as Python dicts; keys are assumed distinct, as in the data files). -/
def lookupTab (k : String × String) : List ((String × String) × ℚ) → Option ℚ
  | [] => none
  | kv :: rest => if kv.1 = k then some kv.2 else lookupTab k rest

/-- `str(j).startswith(c)` for a one-character c: true exactly when j is
nonempty and its first character is c. -/
def startsWithChar (j : String) (c : Char) : Bool :=
  match j.data with
  | [] => false
  | a :: _ => a = c

/-- `set_E = [j for j in set_M if str(j).startswith('E')]` -/
def set_E (data : RetailData) : List String :=
  data.set_M.filter (fun j => startsWithChar j 'E')

/-- `set_C = [j for j in set_M if str(j).startswith('C')]` -/
def set_C (data : RetailData) : List String :=
  data.set_M.filter (fun j => startsWithChar j 'C')

/-- `set_P = [j for j in set_M if str(j).startswith('P')]` -/
def set_P (data : RetailData) : List String :=
  data.set_M.filter (fun j => startsWithChar j 'P')

/-- `model.h = pyo.Param(model.I, model.S, initialize=h_is, default=0)`:
sparse lookup with default 0. -/
def hval (data : RetailData) (i s : String) : ℚ :=
  (lookupTab (i, s) data.h_is).getD 0

/-- The sentinel used for missing distances:
`default=1e6` in the `model.d` parameter declaration. -/
def distSentinel : ℚ := 1000000

/-- `model.d = pyo.Param(model.I, model.P | model.E | model.C,
initialize=d_ij, default=1e6)`: sparse lookup with a large default. -/
def dval (data : RetailData) (i j : String) : ℚ :=
  (lookupTab (i, j) data.d_ij).getD distSentinel

/-- `model.P_max = pyo.Param(initialize=5)`: the budget constant the
script fixes.  The claims treat the budget as per-run configuration, so
the builder below takes it as an argument; this is the script's value. -/
def P_max_script : ℚ := 5

/-- The objective rule, transcribed from `objective_rule(model)`:

    total_captured_demand = 0
    for i in model.I:
        for s in model.S:
            total_captured_demand +=
                model.h[i,s] * sum(1/model.d[i,j] * model.x[j] for j in model.P)

applied to an assignment `x` of the decision variables.  The rational
inverse agrees with Python division whenever no referenced distance is
zero (the zero case is handled by `buildModel` below). -/
def objective_rule (data : RetailData) (x : String → ℚ) : ℚ :=
  data.set_I.foldl (fun acc i =>
    data.set_S.foldl (fun acc2 s =>
      acc2 + hval data i s *
        ((set_P data).map (fun j => (dval data i j)⁻¹ * x j)).sum) acc) 0

/-- Modelled from the spec's words (§4.1), for comparison with
`objective_rule`: `objective = Σ_{i∈I} Σ_{s∈S} h[i,s] · Σ_{j∈P} (1/d[i,j]) · x[j]`. -/
def specObjective (data : RetailData) (x : String → ℚ) : ℚ :=
  (data.set_I.map (fun i =>
    (data.set_S.map (fun s =>
      hval data i s *
        ((set_P data).map (fun j => (dval data i j)⁻¹ * x j)).sum)).sum)).sum

/-- The budget constraint, transcribed from `budget_constraint_rule(model)`:
`sum(model.x[j] for j in model.P) <= model.P_max`. -/
def budget_constraint_rule (data : RetailData) (pMax : ℚ) (x : String → ℚ) : Prop :=
  ((set_P data).map x).sum ≤ pMax

/-- The variable domain declaration
`model.x = pyo.Var(model.P, within=pyo.Binary)`: every decision variable
is binary. -/
def binaryDomain (data : RetailData) (x : String → ℚ) : Prop :=
  ∀ j ∈ set_P data, x j = 0 ∨ x j = 1

/-- An assignment the solver may accept: it satisfies the declared
variable domains and the single constraint of the built model. -/
def feasible (data : RetailData) (pMax : ℚ) (x : String → ℚ) : Prop :=
  binaryDomain data x ∧ budget_constraint_rule data pMax x

instance (data : RetailData) (pMax : ℚ) (x : String → ℚ) :
    Decidable (feasible data pMax x) := by
  unfold feasible binaryDomain budget_constraint_rule
  infer_instance

/-- The error category of §7 for a zero distance hit by a reciprocal.
In the script this surfaces as Python's `ZeroDivisionError` raised while
`objective_rule` builds the expression. -/
inductive BuildError
  | numericError
  deriving DecidableEq

/-- The built optimization model (§4.1's `Model`): variable domain
declaration (`vars`, all binary), the linear objective as a coefficient
per variable, the budget constraint left-hand side, and the budget.
The Pyomo objective expression produced by `objective_rule` is linear in
x; `objCoeffs` records the coefficient of each x[j]. -/
structure BuiltModel where
  vars : List String
  objCoeffs : List (String × ℚ)
  budgetVars : List String
  pMax : ℚ
  deriving DecidableEq

/-- Evaluation of a linear expression given by coefficients at an
assignment. -/
def evalLinear (coeffs : List (String × ℚ)) (x : String → ℚ) : ℚ :=
  (coeffs.map (fun p => p.2 * x p.1)).sum

/-- Construction evaluates `1/model.d[i,j]` for every i in I, s in S and
j in P; it raises exactly when one of those distances is zero. -/
def zeroDistReferenced (data : RetailData) : Bool :=
  data.set_I.any (fun i => data.set_S.any (fun _s =>
    (set_P data).any (fun j => dval data i j = 0)))

/-- The model builder: the script's objective and constraint
declarations, as a fallible pure function.  Construction fails (Python:
`ZeroDivisionError` inside `objective_rule`; §7: `NumericError`) exactly
when a referenced distance is zero; otherwise it produces the built
model, whose objective coefficient of x[j] is
Σ_{i∈I} Σ_{s∈S} h[i,s] · (1/d[i,j]). -/
def buildModel (data : RetailData) (pMax : ℚ) : Except BuildError BuiltModel :=
  if zeroDistReferenced data then
    .error .numericError
  else
    .ok
      { vars := set_P data
        objCoeffs := (set_P data).map (fun j =>
          (j, (data.set_I.map (fun i =>
                (data.set_S.map (fun s =>
                  hval data i s * (dval data i j)⁻¹)).sum)).sum))
        budgetVars := set_P data
        pMax := pMax }

/-- An assignment satisfying the built model's declarations: binary
domains and the budget constraint. -/
def satisfiesModel (m : BuiltModel) (x : String → ℚ) : Prop :=
  (∀ j ∈ m.vars, x j = 0 ∨ x j = 1) ∧ (m.budgetVars.map x).sum ≤ m.pMax

/-! ## The concrete scenario of §8 -/

/-- §8's concrete scenario: I = {A, B}, S = {S1}, P = {P1, P2},
h = {(A,S1):10, (B,S1):5}, d = {(A,P1):2, (A,P2):4, (B,P1):5, (B,P2):1}.
P (and hence x's index set) is derived from set M by the "P" prefix. -/
def scenarioData : RetailData :=
  { set_I := ["A", "B"]
    set_J := ["P1", "P2"]
    set_M := ["P1", "P2"]
    set_S := ["S1"]
    h_is := [(("A", "S1"), 10), (("B", "S1"), 5)]
    d_ij := [(("A", "P1"), 2), (("A", "P2"), 4), (("B", "P1"), 5), (("B", "P2"), 1)]
    v_j0 := [] }

/-- The scenario's expected optimum: open P2 only. -/
def xStar : String → ℚ := fun j => if j = "P2" then 1 else 0

/-- The all-zero assignment (no store opened). -/
def zeroAssign : String → ℚ := fun _ => 0

/-- The all-one assignment (every potential store opened). -/
def oneAssign : String → ℚ := fun _ => 1

/-- The model the builder produces for the scenario with budget 1:
variables x[P1], x[P2], objective 6·x[P1] + 7.5·x[P2], budget
x[P1] + x[P2] ≤ 1. -/
def scenarioModel : BuiltModel :=
  { vars := ["P1", "P2"]
    objCoeffs := [("P1", 6), ("P2", 15 / 2)]
    budgetVars := ["P1", "P2"]
    pMax := 1 }

/-- The §8 scenario with the distance of (A, P1) set to 0: a
data-consistency violation that must abort model construction. -/
def zeroDistData : RetailData :=
  { set_I := ["A", "B"]
    set_J := ["P1", "P2"]
    set_M := ["P1", "P2"]
    set_S := ["S1"]
    h_is := [(("A", "S1"), 10), (("B", "S1"), 5)]
    d_ij := [(("A", "P1"), 0), (("A", "P2"), 4), (("B", "P1"), 5), (("B", "P2"), 1)]
    v_j0 := [] }

/-! ## The load-failure control flow

The script wraps only the seven `pd.read_csv` calls in
`try: ... except FileNotFoundError: print(...)`.  Loading is sequential
(Set I, Set J, Set M, Set S, h_is, d_ij, V_j=0, then the subsets E/C/P);
a missing file jumps to the handler, which prints and falls through, so
the Python names after the failing load stay unassigned.  The model
declarations that follow run outside any handler; each one referencing
an unassigned name raises `NameError` and aborts the script there.  We
model a run by which files are present and record which model
declarations execute before the abort. -/

/-- The declarations the script attaches to the Pyomo model, in source
order. -/
inductive Component
  | concreteModel | declSetI | declSetJ | declSetS | declSetE | declSetC | declSetP
  | paramH | paramD | paramV0 | paramPmax | varX | objectiveDecl | budgetConstraint
  deriving DecidableEq

/-- Run a list of build steps in order; a step whose referenced Python
names are all assigned (`true`) executes, the first step referencing an
unassigned name raises `NameError` and stops the run. -/
def runSteps : List (Component × Bool) → List Component
  | [] => []
  | step :: rest => if step.2 then step.1 :: runSteps rest else []

/-- The model declarations executed in a run where file availability is
given by the seven flags (Set I, Set J, Set M, Set S, h_is, d_ij, V_j=0
in load order).  Loading stops at the first missing file, so a name is
assigned only if every file up to and including its own loaded; the
subset lists set_E / set_C / set_P are computed after all seven loads.
Each build step then requires the names its right-hand side references:
`pyo.ConcreteModel()` and `model.P_max = pyo.Param(initialize=5)` read
no loaded name; every other step reads exactly one. -/
def constructedComponents (fI fJ fM fS fH fD fV : Bool) : List Component :=
  runSteps
    [(Component.concreteModel, true),
     (Component.declSetI, fI),
     (Component.declSetJ, fI && fJ),
     (Component.declSetS, fI && fJ && fM && fS),
     (Component.declSetE, fI && fJ && fM && fS && fH && fD && fV),
     (Component.declSetC, fI && fJ && fM && fS && fH && fD && fV),
     (Component.declSetP, fI && fJ && fM && fS && fH && fD && fV),
     (Component.paramH, fI && fJ && fM && fS && fH),
     (Component.paramD, fI && fJ && fM && fS && fH && fD),
     (Component.paramV0, fI && fJ && fM && fS && fH && fD && fV),
     (Component.paramPmax, true),
     (Component.varX, true),
     (Component.objectiveDecl, true),
     (Component.budgetConstraint, true)]

/-! ## Helper lemmas -/

theorem foldl_add_sum {α : Type*} (f : α → ℚ) (l : List α) (c : ℚ) :
    l.foldl (fun acc a => acc + f a) c = c + (l.map f).sum := by
  induction l generalizing c with
  | nil => simp
  | cons a t ih => simp [ih, add_assoc]

theorem sum_map_mul_right_eq {α : Type*} (l : List α) (f : α → ℚ) (c : ℚ) :
    (l.map f).sum * c = (l.map (fun a => f a * c)).sum := by
  induction l with
  | nil => simp
  | cons a t ih => simp [add_mul, ih]

theorem mul_sum_map_eq {α : Type*} (l : List α) (f : α → ℚ) (c : ℚ) :
    c * (l.map f).sum = (l.map (fun a => c * f a)).sum := by
  induction l with
  | nil => simp
  | cons a t ih => simp [mul_add, ih]

theorem sum_map_add_eq {α : Type*} (l : List α) (f g : α → ℚ) :
    (l.map (fun a => f a + g a)).sum = (l.map f).sum + (l.map g).sum := by
  induction l with
  | nil => simp
  | cons a t ih =>
    simp only [List.map_cons, List.sum_cons, ih]
    ring

theorem sum_map_congr {α : Type*} (l : List α) (f g : α → ℚ)
    (h : ∀ a ∈ l, f a = g a) : (l.map f).sum = (l.map g).sum := by
  induction l with
  | nil => rfl
  | cons a t ih =>
    simp only [List.map_cons, List.sum_cons]
    rw [h a (List.mem_cons_self a t), ih (fun b hb => h b (List.mem_cons_of_mem a hb))]

theorem sum_swap_eq {α β : Type*} (l1 : List α) (l2 : List β) (f : α → β → ℚ) :
    (l1.map (fun a => (l2.map (fun b => f a b)).sum)).sum
      = (l2.map (fun b => (l1.map (fun a => f a b)).sum)).sum := by
  induction l1 with
  | nil => simp
  | cons a t ih =>
    simp only [List.map_cons, List.sum_cons, ih, ← sum_map_add_eq]

theorem lookupTab_eq_none (k : String × String)
    (l : List ((String × String) × ℚ)) (h : k ∉ l.map Prod.fst) :
    lookupTab k l = none := by
  induction l with
  | nil => rfl
  | cons kv rest ih =>
    simp only [List.map_cons, List.mem_cons, not_or] at h
    have hne : kv.1 ≠ k := fun he => h.1 he.symm
    simp only [lookupTab, if_neg hne, ih h.2]

theorem lookupTab_mem (k : String × String) (v : ℚ) :
    ∀ l : List ((String × String) × ℚ), lookupTab k l = some v → (k, v) ∈ l := by
  intro l
  induction l with
  | nil => intro h; simp [lookupTab] at h
  | cons kv rest ih =>
    intro h
    by_cases he : kv.1 = k
    · simp only [lookupTab, if_pos he] at h
      obtain rfl := Option.some.inj h
      obtain ⟨k1, v1⟩ := kv
      subst he
      exact List.mem_cons_self _ _
    · simp only [lookupTab, if_neg he] at h
      exact List.mem_cons_of_mem kv (ih h)

theorem hval_nonneg (data : RetailData) (hh : ∀ p ∈ data.h_is, 0 ≤ p.2)
    (i s : String) : 0 ≤ hval data i s := by
  unfold hval
  cases hlk : lookupTab (i, s) data.h_is with
  | none => simp
  | some v =>
    simpa using hh ((i, s), v) (lookupTab_mem (i, s) v data.h_is hlk)

theorem sum_map_one_eq_length {α : Type*} (l : List α) :
    (l.map (fun _ => (1 : ℚ))).sum = (l.length : ℚ) := by
  induction l with
  | nil => simp
  | cons a t ih =>
    simp only [List.map_cons, List.sum_cons, ih, List.length_cons]
    push_cast
    ring

theorem binary_sum_nonpos_all_zero (x : String → ℚ) :
    ∀ l : List String, (∀ j ∈ l, x j = 0 ∨ x j = 1) → (l.map x).sum ≤ 0 →
      ∀ j ∈ l, x j = 0 := by
  intro l
  induction l with
  | nil => intro _ _ j hj; exact absurd hj (List.not_mem_nil j)
  | cons a t ih =>
    intro hbin hsum j hj
    have hnn : ∀ b ∈ t, 0 ≤ x b := by
      intro b hb
      rcases hbin b (List.mem_cons_of_mem a hb) with h0 | h1
      · exact le_of_eq h0.symm
      · rw [h1]; exact zero_le_one
    have htail : 0 ≤ (t.map x).sum :=
      List.sum_nonneg (by intro q hq; obtain ⟨b, hb, rfl⟩ := List.mem_map.1 hq; exact hnn b hb)
    have hhead : 0 ≤ x a := by
      rcases hbin a (List.mem_cons_self a t) with h0 | h1
      · exact le_of_eq h0.symm
      · rw [h1]; exact zero_le_one
    simp only [List.map_cons, List.sum_cons] at hsum
    have hxa : x a = 0 := le_antisymm (by linarith) hhead
    have hts : (t.map x).sum ≤ 0 := by linarith
    rcases List.mem_cons.1 hj with rfl | hjt
    · exact hxa
    · exact ih (fun b hb => hbin b (List.mem_cons_of_mem a hb)) hts j hjt

theorem objective_rule_eq_specObjective (data : RetailData) (x : String → ℚ) :
    objective_rule data x = specObjective data x := by
  unfold objective_rule specObjective
  simp only [foldl_add_sum, zero_add]

theorem evalLinear_buildCoeffs (data : RetailData) (x : String → ℚ) :
    evalLinear ((set_P data).map (fun j =>
      (j, (data.set_I.map (fun i =>
            (data.set_S.map (fun s => hval data i s * (dval data i j)⁻¹)).sum)).sum))) x
      = specObjective data x := by
  unfold evalLinear specObjective
  rw [List.map_map]
  have e1 : ((fun p : String × ℚ => p.2 * x p.1) ∘ (fun j =>
      (j, (data.set_I.map (fun i =>
            (data.set_S.map (fun s => hval data i s * (dval data i j)⁻¹)).sum)).sum)))
      = fun j => (data.set_I.map (fun i =>
            (data.set_S.map (fun s => hval data i s * (dval data i j)⁻¹)).sum)).sum * x j := rfl
  rw [e1]
  have hcong : ∀ j ∈ set_P data,
      (data.set_I.map (fun i =>
        (data.set_S.map (fun s => hval data i s * (dval data i j)⁻¹)).sum)).sum * x j
      = (data.set_I.map (fun i =>
          (data.set_S.map (fun s => hval data i s * ((dval data i j)⁻¹ * x j))).sum)).sum := by
    intro j _
    rw [sum_map_mul_right_eq]
    refine sum_map_congr _ _ _ (fun i _ => ?_)
    rw [sum_map_mul_right_eq]
    exact sum_map_congr _ _ _ (fun s _ => by ring)
  rw [sum_map_congr _ _ _ hcong]
  rw [sum_swap_eq (set_P data) data.set_I (fun j i =>
        (data.set_S.map (fun s => hval data i s * ((dval data i j)⁻¹ * x j))).sum)]
  refine sum_map_congr _ _ _ (fun i _ => ?_)
  rw [sum_swap_eq (set_P data) data.set_S
        (fun j s => hval data i s * ((dval data i j)⁻¹ * x j))]
  refine sum_map_congr _ _ _ (fun s _ => ?_)
  rw [mul_sum_map_eq]

theorem set_P_scenario : set_P scenarioData = ["P1", "P2"] := by decide

theorem objective_rule_scenario (x : String → ℚ) :
    objective_rule scenarioData x = 6 * x "P1" + 15 / 2 * x "P2" := by
  simp [objective_rule, scenarioData, set_P, startsWithChar, hval, dval, lookupTab,
    distSentinel]
  ring

theorem budget_sum_scenario (x : String → ℚ) :
    ((set_P scenarioData).map x).sum = x "P1" + x "P2" := by
  simp [set_P, scenarioData, startsWithChar]

theorem zeroDistReferenced_scenario : zeroDistReferenced scenarioData = false := by
  decide

theorem buildModel_scenario : buildModel scenarioData 1 = .ok scenarioModel := by
  unfold buildModel
  rw [zeroDistReferenced_scenario]
  simp [scenarioModel, scenarioData, set_P, startsWithChar, hval, dval,
    lookupTab, distSentinel]
  norm_num

/-! ## Claims -/

/-- C1: the built model's objective equals the double sum over every
demand location i in I and every segment s in S of h[i,s] times the sum
over every potential site j in P of (1/d[i,j]) times x[j]: for every
assignment x of the decision variables, the built objective expression
evaluates to exactly that formula (`specObjective` transcribes the
spec's formula; maximisation is the declared sense in the source). -/
theorem C1_objective_equals_inverse_distance_double_sum
    (data : RetailData) (pMax : ℚ) (m : BuiltModel)
    (hbuild : buildModel data pMax = .ok m) (x : String → ℚ) :
    evalLinear m.objCoeffs x = specObjective data x := by
  unfold buildModel at hbuild
  by_cases hz : zeroDistReferenced data = true
  · rw [if_pos hz] at hbuild
    exact absurd hbuild (by simp)
  · rw [if_neg hz] at hbuild
    injection hbuild with h
    subst h
    exact evalLinear_buildCoeffs data x

theorem C1_witness :
    evalLinear scenarioModel.objCoeffs zeroAssign = specObjective scenarioData zeroAssign :=
  C1_objective_equals_inverse_distance_double_sum scenarioData 1 scenarioModel
    buildModel_scenario zeroAssign

/-- C2: every assignment accepted for the built model (it satisfies the
declared binary domains and the budget constraint) has x[j] either 0 or
1 for every j in the Potential set P, and Σ_{j∈P} x[j] ≤ P_max. -/
theorem C2_accepted_solutions_binary_and_within_budget
    (data : RetailData) (pMax : ℚ) (m : BuiltModel) (x : String → ℚ)
    (hbuild : buildModel data pMax = .ok m) (hsat : satisfiesModel m x) :
    (∀ j ∈ set_P data, x j = 0 ∨ x j = 1) ∧ ((set_P data).map x).sum ≤ pMax := by
  unfold buildModel at hbuild
  by_cases hz : zeroDistReferenced data = true
  · rw [if_pos hz] at hbuild
    exact absurd hbuild (by simp)
  · rw [if_neg hz] at hbuild
    injection hbuild with h
    subst h
    exact ⟨hsat.1, hsat.2⟩

theorem C2_witness :
    (∀ j ∈ set_P scenarioData, zeroAssign j = 0 ∨ zeroAssign j = 1) ∧
      ((set_P scenarioData).map zeroAssign).sum ≤ 1 :=
  C2_accepted_solutions_binary_and_within_budget scenarioData 1 scenarioModel zeroAssign
    buildModel_scenario
    (by refine ⟨fun j _ => Or.inl rfl, ?_⟩
        simp [scenarioModel, zeroAssign])

/-- C9: the baseline-utility table v0 is loaded into the data model but
does not influence the built model: two runs whose inputs differ only in
the v0 table build the same variable declarations, objective and budget
constraint. -/
theorem C9_v0_does_not_influence_built_model
    (data : RetailData) (v0new : List (String × ℚ)) (pMax : ℚ) :
    buildModel { data with v_j0 := v0new } pMax = buildModel data pMax := rfl

/-- C10: the contents of set J never influence the built model: the
decision variables, objective and budget constraint are indexed by the
Potential subset P derived from set M by the "P" identifier prefix, so
two runs whose inputs differ only in the J table build the same model. -/
theorem C10_setJ_does_not_influence_built_model
    (data : RetailData) (jNew : List String) (pMax : ℚ) :
    buildModel { data with set_J := jNew } pMax = buildModel data pMax := rfl

/-- C3: for the §8 scenario (I = {A,B}, S = {S1}, P = {P1,P2},
h = {(A,S1):10, (B,S1):5}, d = {(A,P1):2, (A,P2):4, (B,P1):5, (B,P2):1})
with P_max = 1, the optimum of the built model opens P2 only:
x* = (x[P1]=0, x[P2]=1) is feasible with objective value 7.5, every
feasible assignment has objective at most 7.5, and a feasible assignment
attaining 7.5 has x[P1] = 0 and x[P2] = 1. -/
theorem C3_scenario_optimum_opens_P2_only :
    feasible scenarioData 1 xStar ∧ objective_rule scenarioData xStar = 15 / 2 ∧
      ∀ x, feasible scenarioData 1 x →
        objective_rule scenarioData x ≤ 15 / 2 ∧
          (objective_rule scenarioData x = 15 / 2 → x "P1" = 0 ∧ x "P2" = 1) := by
  refine ⟨⟨?_, ?_⟩, ?_, ?_⟩
  · intro j hj
    rw [set_P_scenario] at hj
    simp only [List.mem_cons, List.mem_singleton, List.not_mem_nil, or_false] at hj
    rcases hj with rfl | rfl
    · left; simp [xStar]
    · right; simp [xStar]
  · show ((set_P scenarioData).map xStar).sum ≤ 1
    rw [budget_sum_scenario]
    simp [xStar]
  · rw [objective_rule_scenario]
    simp [xStar]
  · intro x hx
    have h1 := hx.1 "P1" (by rw [set_P_scenario]; simp)
    have h2 := hx.1 "P2" (by rw [set_P_scenario]; simp)
    have hsum : x "P1" + x "P2" ≤ 1 := by
      have hb : ((set_P scenarioData).map x).sum ≤ 1 := hx.2
      rwa [budget_sum_scenario] at hb
    rw [objective_rule_scenario]
    rcases h1 with h1 | h1 <;> rcases h2 with h2 | h2
    · rw [h1, h2]; norm_num
    · rw [h1, h2]; norm_num
    · rw [h1, h2]; norm_num
    · exfalso
      rw [h1, h2] at hsum
      norm_num at hsum

theorem C3_witness : objective_rule scenarioData xStar ≤ 15 / 2 :=
  (C3_scenario_optimum_opens_P2_only.2.2 xStar C3_scenario_optimum_opens_P2_only.1).1

/-- C4: with non-negative demand weights and strictly positive
referenced distances, if P_max = 0 then the all-zero assignment is
feasible, every feasible assignment vanishes on every potential site
(so the all-zero assignment is the unique feasible one, hence the
unique optimum), and its objective value is 0. -/
theorem C4_budget_zero_forces_all_zero
    (data : RetailData)
    (_hh : ∀ p ∈ data.h_is, 0 ≤ p.2)
    (_hd : ∀ i ∈ data.set_I, ∀ j ∈ set_P data, 0 < dval data i j) :
    feasible data 0 zeroAssign ∧
      ∀ x, feasible data 0 x →
        (∀ j ∈ set_P data, x j = 0) ∧ objective_rule data x = 0 := by
  constructor
  · refine ⟨fun j _ => Or.inl rfl, ?_⟩
    show ((set_P data).map zeroAssign).sum ≤ 0
    have hz : ((set_P data).map zeroAssign).sum = 0 := by
      refine List.sum_eq_zero ?_
      intro q hq
      obtain ⟨b, _, rfl⟩ := List.mem_map.1 hq
      rfl
    rw [hz]
  · intro x hx
    have hzero : ∀ j ∈ set_P data, x j = 0 :=
      binary_sum_nonpos_all_zero x (set_P data) hx.1 hx.2
    refine ⟨hzero, ?_⟩
    rw [objective_rule_eq_specObjective]
    unfold specObjective
    refine List.sum_eq_zero ?_
    intro q hq
    obtain ⟨i, hi, rfl⟩ := List.mem_map.1 hq
    refine List.sum_eq_zero ?_
    intro r hr
    obtain ⟨s, hs, rfl⟩ := List.mem_map.1 hr
    have hin : ((set_P data).map (fun j => (dval data i j)⁻¹ * x j)).sum = 0 := by
      refine List.sum_eq_zero ?_
      intro t ht
      obtain ⟨j, hj, rfl⟩ := List.mem_map.1 ht
      rw [hzero j hj, mul_zero]
    rw [hin, mul_zero]

theorem C4_witness :
    feasible scenarioData 0 zeroAssign ∧
      ((∀ j ∈ set_P scenarioData, zeroAssign j = 0) ∧
        objective_rule scenarioData zeroAssign = 0) := by
  have h := C4_budget_zero_forces_all_zero scenarioData
    (by intro p hp
        simp only [scenarioData, List.mem_cons, List.mem_singleton,
          List.not_mem_nil, or_false] at hp
        rcases hp with rfl | rfl <;> norm_num)
    (by intro i hi j hj
        rw [set_P_scenario] at hj
        simp only [scenarioData, List.mem_cons, List.mem_singleton,
          List.not_mem_nil, or_false] at hi hj
        rcases hi with rfl | rfl <;> rcases hj with rfl | rfl <;>
          simp [dval, lookupTab, scenarioData, distSentinel])
  exact ⟨h.1, h.2 zeroAssign h.1⟩

/-- C5: if d[i,j] = 0 for some demand location i in I and potential
site j in P while h[i,s] > 0 for some segment s in S, model
construction fails fast with the NumericError (in the script, Python's
ZeroDivisionError raised at the reciprocal inside the objective rule)
and produces no model, hence no objective with an infinite, NaN or
otherwise undefined coefficient. -/
theorem C5_zero_distance_fails_construction
    (data : RetailData) (pMax : ℚ) (i s j : String)
    (hi : i ∈ data.set_I) (hs : s ∈ data.set_S) (hj : j ∈ set_P data)
    (hdz : dval data i j = 0) (_hhs : 0 < hval data i s) :
    buildModel data pMax = .error .numericError := by
  unfold buildModel
  have hz : zeroDistReferenced data = true := by
    unfold zeroDistReferenced
    rw [List.any_eq_true]
    refine ⟨i, hi, ?_⟩
    rw [List.any_eq_true]
    refine ⟨s, hs, ?_⟩
    rw [List.any_eq_true]
    exact ⟨j, hj, decide_eq_true hdz⟩
  simp [hz]

theorem C5_witness : buildModel zeroDistData 1 = .error .numericError :=
  C5_zero_distance_fails_construction zeroDistData 1 "A" "S1" "P1"
    (by decide) (by decide) (by decide)
    (by norm_num [dval, zeroDistData, lookupTab])
    (by norm_num [hval, zeroDistData, lookupTab])

/-- C7: parameter lookup is sparse-with-default: h[i,s] evaluates to 0
for every pair absent from the demand-weight table, and d[i,j] evaluates
to the large unreachable sentinel (1e6) for every pair absent from the
distance table; both lookups are total functions, so lookups on unlisted
pairs never fail. -/
theorem C7_sparse_lookups_default (data : RetailData) (i s j : String) :
    ((i, s) ∉ data.h_is.map Prod.fst → hval data i s = 0) ∧
      ((i, j) ∉ data.d_ij.map Prod.fst → dval data i j = distSentinel) := by
  constructor
  · intro habs
    unfold hval
    rw [lookupTab_eq_none (i, s) data.h_is habs]
    rfl
  · intro habs
    unfold dval
    rw [lookupTab_eq_none (i, j) data.d_ij habs]
    rfl

theorem C7_witness :
    hval scenarioData "A" "S2" = 0 ∧ dval scenarioData "C3" "P1" = distSentinel :=
  ⟨(C7_sparse_lookups_default scenarioData "A" "S2" "P1").1 (by decide),
   (C7_sparse_lookups_default scenarioData "C3" "S2" "P1").2 (by decide)⟩

/-- C8: with non-negative demand weights, strictly positive referenced
distances and P_max at least |P|, the assignment opening all potential
sites is feasible and its objective value is at least that of every
other feasible assignment (the objective is additive across opened
sites with non-negative contributions). -/
theorem C8_all_open_feasible_and_dominates
    (data : RetailData) (pMax : ℚ)
    (hh : ∀ p ∈ data.h_is, 0 ≤ p.2)
    (hd : ∀ i ∈ data.set_I, ∀ j ∈ set_P data, 0 < dval data i j)
    (hp : ((set_P data).length : ℚ) ≤ pMax) :
    feasible data pMax oneAssign ∧
      ∀ x, feasible data pMax x →
        objective_rule data x ≤ objective_rule data oneAssign := by
  constructor
  · refine ⟨fun j _ => Or.inr rfl, ?_⟩
    show ((set_P data).map oneAssign).sum ≤ pMax
    rw [show (set_P data).map oneAssign = (set_P data).map (fun _ => (1 : ℚ)) from rfl]
    rw [sum_map_one_eq_length]
    exact hp
  · intro x hx
    rw [objective_rule_eq_specObjective, objective_rule_eq_specObjective]
    unfold specObjective
    refine List.sum_le_sum ?_
    intro i hi
    refine List.sum_le_sum ?_
    intro s _
    refine mul_le_mul_of_nonneg_left ?_ (hval_nonneg data hh i s)
    refine List.sum_le_sum ?_
    intro j hj
    have hinv : 0 ≤ (dval data i j)⁻¹ := inv_nonneg.mpr (le_of_lt (hd i hi j hj))
    have hle1 : x j ≤ 1 := by
      rcases hx.1 j hj with h0 | h1
      · rw [h0]; exact zero_le_one
      · rw [h1]
    calc (dval data i j)⁻¹ * x j ≤ (dval data i j)⁻¹ * 1 :=
          mul_le_mul_of_nonneg_left hle1 hinv
      _ = (dval data i j)⁻¹ * oneAssign j := rfl

theorem C8_witness :
    feasible scenarioData 2 oneAssign ∧
      objective_rule scenarioData xStar ≤ objective_rule scenarioData oneAssign ∧
      objective_rule scenarioData oneAssign = 27 / 2 := by
  have h := C8_all_open_feasible_and_dominates scenarioData 2
    (by intro p hp
        simp only [scenarioData, List.mem_cons, List.mem_singleton,
          List.not_mem_nil, or_false] at hp
        rcases hp with rfl | rfl <;> norm_num)
    (by intro i hi j hj
        rw [set_P_scenario] at hj
        simp only [scenarioData, List.mem_cons, List.mem_singleton,
          List.not_mem_nil, or_false] at hi hj
        rcases hi with rfl | rfl <;> rcases hj with rfl | rfl <;>
          simp [dval, lookupTab, scenarioData, distSentinel])
    (by rw [set_P_scenario]; norm_num)
  refine ⟨h.1, h.2 xStar ?_, ?_⟩
  · refine ⟨fun j hj => ?_, ?_⟩
    · rw [set_P_scenario] at hj
      simp only [List.mem_cons, List.mem_singleton, List.not_mem_nil, or_false] at hj
      rcases hj with rfl | rfl
      · left; simp [xStar]
      · right; simp [xStar]
    · show ((set_P scenarioData).map xStar).sum ≤ 2
      rw [budget_sum_scenario]
      simp [xStar]
  · rw [objective_rule_scenario]
    norm_num [oneAssign]

/-- C6 (refuting the claim as stated): in a run where every data file is
present except `h_is.csv`, the script catches the FileNotFoundError,
prints a message, and falls through into model build: the ConcreteModel
and the set declarations I, J, S are constructed before the NameError
abort at `model.E`.  A partial model is thus produced and the run does
not abort before model build, contrary to the claim; its other half
holds, since no parameter, variable, objective or constraint declaration
is ever reached after a load failure. -/
theorem C6_partial_model_after_load_failure :
    constructedComponents true true true true false true true
      = [Component.concreteModel, Component.declSetI, Component.declSetJ,
         Component.declSetS] := by
  rfl
